import Mathlib

/-!
Verification of the utility-billing application core (src/app.py).

The embedding models the application's data and logic over exact numbers:
Python floats are modelled as rationals (`ℚ`), and the single irrational
quantity the code computes — `math.sqrt` of the population variance — is
modelled with `Real.sqrt`, so the anomaly condition lives in `Prop`.
The SQLite tables are modelled as Lean lists of records; the routes
`add_usage` and `generate_bill` become pure functions from the pre-state
to an outcome together with the post-state.  Fields of the ORM models that
no logic reads (surrogate ids, timestamps) are omitted.
-/

namespace UtilityBilling

/-- Model of the `UsageRecord` ORM row (src/app.py lines 70-85): a usage
reading belonging to one customer, keyed by (customer_id, month,
utility_type), carrying the numeric usage value and the anomaly flag that
was computed when the record was inserted. -/
structure UsageRecord where
  customer_id : Nat
  month : String
  utility_type : String
  usage_value : ℚ
  is_anomaly : Prop

/-- Model of the `Bill` ORM row (src/app.py lines 88-105). -/
structure Bill where
  customer_id : Nat
  month : String
  utility_type : String
  usage_value : ℚ
  rate_per_unit : ℚ
  base_fee : ℚ
  total_amount : ℚ
deriving DecidableEq

/-- The key test used by the queries in `add_usage`, `generate_bill` and
`compute_anomaly_flag`: does record `r` carry the given customer id, month
and utility type? -/
def usageKeyMatch (customer_id : Nat) (month utility_type : String) (r : UsageRecord) : Bool :=
  r.customer_id == customer_id && r.month == month && r.utility_type == utility_type

/-- Lexicographic comparison of character lists by code point. -/
def lexLt : List Char → List Char → Bool
  | [], [] => false
  | [], _ :: _ => true
  | _ :: _, [] => false
  | c :: cs, d :: ds => if c < d then true else if d < c then false else lexLt cs ds

/-- Strict lexicographic order on month strings, the order SQLite's
ORDER BY applies to these ASCII TEXT values. -/
def monthLt (a b : String) : Bool :=
  lexLt a.toList b.toList

/-- Insert one record into a list that is sorted by month (ascending). -/
def insertByMonth (r : UsageRecord) : List UsageRecord → List UsageRecord
  | [] => [r]
  | s :: rest => if monthLt r.month s.month then r :: s :: rest else s :: insertByMonth r rest

/-- Insertion sort by the month string, ascending: the model of the query
modifier `order_by(UsageRecord.month.asc())`. -/
def sortByMonth : List UsageRecord → List UsageRecord
  | [] => []
  | r :: rest => insertByMonth r (sortByMonth rest)

/-- Model of the history query in `compute_anomaly_flag` (src/app.py lines
135-138): all stored records of this customer and utility type — with no
condition on their month — ordered by month ascending. -/
def usage_history (db : List UsageRecord) (customer_id : Nat) (utility_type : String) :
    List UsageRecord :=
  sortByMonth (db.filter fun r => r.customer_id == customer_id && r.utility_type == utility_type)

/-- The mean computed at src/app.py line 144: `sum(vals) / len(vals)`. -/
def histMean (vals : List ℚ) : ℚ :=
  vals.sum / (vals.length : ℚ)

/-- The population variance computed at src/app.py line 146 (divisor `N`):
`sum((x - mean) ** 2 for x in vals) / len(vals)`. -/
def histVar (vals : List ℚ) : ℚ :=
  ((vals.map fun x => (x - histMean vals) ^ 2).sum) / (vals.length : ℚ)

/-- The anomaly rule of `compute_anomaly_flag` (src/app.py lines 140-151),
as the pure evaluator the specification calls `isAnomalous(history,
newValue)`: fewer than 5 prior values is never anomalous; otherwise with
`std = sqrt(variance)` and `threshold = mean + 2 * std`, the reading is
anomalous when `new_value > threshold` if `std > 0`, else when
`new_value > mean`. -/
def is_anomalous (history : List ℚ) (new_value : ℚ) : Prop :=
  if history.length < 5 then False
  else
    let std : ℝ := Real.sqrt ((histVar history : ℚ) : ℝ)
    let threshold : ℝ := ((histMean history : ℚ) : ℝ) + 2 * std
    if 0 < std then ((new_value : ℚ) : ℝ) > threshold else new_value > histMean history

/-- Model of `compute_anomaly_flag(customer_id, utility_type, new_value)`
(src/app.py lines 127-151): fetch the customer's stored history for this
utility type ordered by month, take its usage values, and apply the
anomaly rule to them and the new value. -/
def compute_anomaly_flag (db : List UsageRecord) (customer_id : Nat) (utility_type : String)
    (new_value : ℚ) : Prop :=
  is_anomalous ((usage_history db customer_id utility_type).map UsageRecord.usage_value) new_value

/-- Round a rational to the nearest integer, ties to the even neighbour:
the rounding of Python's built-in `round` (used at src/app.py line 112),
on the exact rational value. -/
def roundHalfEven (q : ℚ) : ℤ :=
  if q - (⌊q⌋ : ℚ) < 1 / 2 then ⌊q⌋
  else if 1 / 2 < q - (⌊q⌋ : ℚ) then ⌊q⌋ + 1
  else if ⌊q⌋ % 2 = 0 then ⌊q⌋ else ⌊q⌋ + 1

/-- Python's `round(x, 2)` on the exact rational value: round `100 * x` to
the nearest integer (ties to even) and scale back. -/
def round2 (x : ℚ) : ℚ :=
  ((roundHalfEven (x * 100) : ℤ) : ℚ) / 100

/-- Model of `calculate_bill` (src/app.py lines 111-112):
`round(base_fee + (usage_value * rate_per_unit), 2)`. -/
def calculate_bill (usage_value rate_per_unit base_fee : ℚ) : ℚ :=
  round2 (base_fee + usage_value * rate_per_unit)

/-- One entry of the static rate schedule. -/
structure RateInfo where
  rate_per_unit : ℚ
  base_fee : ℚ
deriving DecidableEq

/-- Model of the `DEFAULT_RATES` dict (src/app.py lines 115-119), as a
lookup from the utility type to its schedule entry; `none` models a key
that is absent from the dict. -/
def DEFAULT_RATES (utility_type : String) : Option RateInfo :=
  if utility_type = "electric" then some ⟨16 / 100, 8⟩
  else if utility_type = "water" then some ⟨5 / 1000, 10⟩
  else if utility_type = "gas" then some ⟨120 / 100, 12⟩
  else none

/-- Shape check applied to the submitted month at src/app.py line 248:
the request is rejected when `len(month) != 7 or month[4] != "-"`.  This
Boolean is the *passing* condition. -/
def monthShapeOk (month : String) : Bool :=
  month.length == 7 && month.toList.getD 4 ' ' == '-'

/-- Is a record with this key already stored?  Models the unique
constraint `uq_usage_customer_month_type` (src/app.py lines 83-85): the
commit raises exactly when such a record exists. -/
def hasUsageKey (db : List UsageRecord) (customer_id : Nat) (month utility_type : String) : Bool :=
  db.any (usageKeyMatch customer_id month utility_type)

/-- Outcome of an `add_usage` request, one constructor per flash message
of the route (src/app.py lines 240-288). -/
inductive AddUsageOutcome where
  | monthFormatError
  | usageValueError
  | utilityTypeError
  | duplicateError
  | storedRecord (r : UsageRecord)

/-- Model of the `add_usage` route (src/app.py lines 240-288) for a usage
value that parses to a finite number (string parsing of the raw usage
value, including IEEE special values, is modelled separately below by
`usage_value_validation`).  Validation runs first, in source order: month
shape, negative value, unknown utility type; each rejection leaves the
store unchanged.  Then the anomaly flag is computed from the pre-state,
the record is built, and the insert succeeds unless the unique
constraint fires, in which case the transaction is rolled back and the
store is unchanged. -/
def add_usage (db : List UsageRecord) (customer_id : Nat) (month utility_type : String)
    (usage_value : ℚ) : AddUsageOutcome × List UsageRecord :=
  if ¬ monthShapeOk month then (.monthFormatError, db)
  else if usage_value < 0 then (.usageValueError, db)
  else if (DEFAULT_RATES utility_type).isNone then (.utilityTypeError, db)
  else
    let is_anomaly := compute_anomaly_flag db customer_id utility_type usage_value
    let record : UsageRecord :=
      { customer_id := customer_id, month := month, utility_type := utility_type,
        usage_value := usage_value, is_anomaly := is_anomaly }
    if hasUsageKey db customer_id month utility_type then (.duplicateError, db)
    else (.storedRecord record, db ++ [record])

/-- Is a bill with this key already stored?  Models the unique constraint
`uq_bill_customer_month_type` (src/app.py lines 103-105). -/
def hasBillKey (db : List Bill) (customer_id : Nat) (month utility_type : String) : Bool :=
  db.any fun b => b.customer_id == customer_id && b.month == month && b.utility_type == utility_type

/-- Outcome of a `generate_bill` request.  `rateLookupFailure` models the
uncaught `KeyError` the route would raise on `DEFAULT_RATES[utility_type]`
for an unknown type; it is unreachable when the matching record was
created by `add_usage`, which validates the type. -/
inductive BillOutcome where
  | noUsageRecord
  | rateLookupFailure
  | duplicateBillError
  | storedBill (b : Bill)
deriving DecidableEq

/-- Model of the `generate_bill` route (src/app.py lines 291-324): look up
the usage record with the requested key; with no match, report and leave
the store unchanged.  Otherwise read the rate schedule, compute the total
with `calculate_bill`, and insert the bill unless its unique constraint
fires, in which case the transaction is rolled back. -/
def generate_bill (usage_db : List UsageRecord) (bill_db : List Bill) (customer_id : Nat)
    (month utility_type : String) : BillOutcome × List Bill :=
  match usage_db.find? (usageKeyMatch customer_id month utility_type) with
  | none => (.noUsageRecord, bill_db)
  | some r =>
    match DEFAULT_RATES utility_type with
    | none => (.rateLookupFailure, bill_db)
    | some rate_info =>
      let total := calculate_bill r.usage_value rate_info.rate_per_unit rate_info.base_fee
      let bill : Bill :=
        { customer_id := customer_id, month := month, utility_type := utility_type,
          usage_value := r.usage_value, rate_per_unit := rate_info.rate_per_unit,
          base_fee := rate_info.base_fee, total_amount := total }
      if hasBillKey bill_db customer_id month utility_type then (.duplicateBillError, bill_db)
      else (.storedBill bill, bill_db ++ [bill])

/-- Model of a Python float value as far as the validation at src/app.py
lines 252-258 observes it: a finite value (an exact rational), or one of
the IEEE special values NaN, +inf, -inf. -/
inductive PyFloat where
  | finite (q : ℚ)
  | nan
  | inf
  | ninf
deriving DecidableEq

/-- Is this value an ordinary finite number? -/
def PyFloat.isFinite : PyFloat → Bool
  | .finite _ => true
  | _ => false

/-- The comparison `v < 0` of src/app.py line 254 under IEEE semantics:
false for NaN (every comparison with NaN is false) and for +inf, true for
-inf, and the rational comparison for finite values. -/
def PyFloat.ltZero : PyFloat → Bool
  | .finite q => decide (q < 0)
  | .nan => false
  | .inf => false
  | .ninf => true

/-- Decimal digits as a natural number, most significant first. -/
def digitsToNat (ds : List Char) : Nat :=
  ds.foldl (fun acc c => 10 * acc + (c.toNat - 48)) 0

/-- Parse an unsigned decimal literal: digits, optionally with one decimal
point, at least one digit overall (so "5", "5.", ".5", "5.25" parse and
"", ".", "5x" do not). -/
def decimalCore (cs : List Char) : Option ℚ :=
  let ds1 := cs.takeWhile Char.isDigit
  let rest := cs.dropWhile Char.isDigit
  match rest with
  | [] => if ds1.isEmpty then none else some ((digitsToNat ds1 : ℚ))
  | '.' :: rest2 =>
    let ds2 := rest2.takeWhile Char.isDigit
    let rest3 := rest2.dropWhile Char.isDigit
    if rest3.isEmpty = false then none
    else if ds1.isEmpty && ds2.isEmpty then none
    else some ((digitsToNat ds1 : ℚ) + (digitsToNat ds2 : ℚ) / ((10 : ℚ) ^ ds2.length))
  | _ => none

/-- Model of Python's built-in `float(str)` as called at src/app.py line
253 on the stripped form value: an optional sign followed by either a
decimal literal or one of the special words inf, infinity, nan (case
insensitive); a string of any other shape raises `ValueError`, modelled
as `none`.  (Exponents, underscores and inner whitespace of the full
Python grammar are omitted; no input in this development uses them.) -/
def pyFloatOfString (s : String) : Option PyFloat :=
  let t := s.toList.map Char.toLower
  let signed : Bool × List Char :=
    match t with
    | '-' :: rest => (true, rest)
    | '+' :: rest => (false, rest)
    | cs => (false, cs)
  let neg := signed.1
  let core := signed.2
  if core = [ 'i', 'n', 'f' ] ∨ core = "infinity".toList then
    some (if neg then .ninf else .inf)
  else if core = [ 'n', 'a', 'n' ] then some .nan
  else
    match decimalCore core with
    | some q => some (.finite (if neg then -q else q))
    | none => none

/-- The usage-value validation of the `add_usage` route (src/app.py lines
252-258) at the string level: parse with `float`; a parse failure or a
value comparing less than zero is rejected (`none`); any other parsed
value — including NaN and +inf, for which `v < 0` is false — is accepted
and becomes the stored usage value. -/
def usage_value_validation (usage_value_raw : String) : Option PyFloat :=
  match pyFloatOfString usage_value_raw with
  | none => none
  | some v => if v.ltZero then none else some v

/-- The uniqueness key of a usage record, the triple the constraint
`uq_usage_customer_month_type` ranges over. -/
def recKey (r : UsageRecord) : Nat × String × String :=
  (r.customer_id, r.month, r.utility_type)

/-- The uniqueness invariant of the `usage_records` table: no two stored
records share a (customer_id, month, utility_type) key. -/
def uniqueKeys (db : List UsageRecord) : Prop :=
  db.Pairwise fun a b => recKey a ≠ recKey b

/-- Following the specification's words (section 4.1: "each record's
anomaly flag reflects only strictly-earlier data, ordered by month string
ascending"): the baseline the spec prescribes for a submission in month
`month` keeps, among the customer's stored records of this utility type,
only those whose month string is lexicographically less than `month`.
Stated from the spec for comparison with the query the code performs
(`usage_history`, which has no month condition). -/
def spec_strictlyEarlier (db : List UsageRecord) (customer_id : Nat)
    (utility_type month : String) : List UsageRecord :=
  sortByMonth (db.filter fun r =>
    r.customer_id == customer_id && r.utility_type == utility_type && monthLt r.month month)

/-- A store of five stored readings, all of value 10, for months
2026-02 through 2026-06: every stored month is lexicographically greater
than "2026-01". -/
def dbLater : List UsageRecord :=
  [⟨1, "2026-02", "electric", 10, False⟩, ⟨1, "2026-03", "electric", 10, False⟩,
   ⟨1, "2026-04", "electric", 10, False⟩, ⟨1, "2026-05", "electric", 10, False⟩,
   ⟨1, "2026-06", "electric", 10, False⟩]

/-- The record `add_usage` builds when month 2026-01 with value 100 is
submitted against the store `dbLater`. -/
def recBackfill : UsageRecord :=
  ⟨1, "2026-01", "electric", 100, compute_anomaly_flag dbLater 1 "electric" 100⟩

/-- The record `add_usage` builds when month 2026-01 with value 5 is
submitted against an empty store. -/
def recFirst : UsageRecord :=
  ⟨1, "2026-01", "electric", 5, compute_anomaly_flag [] 1 "electric" 5⟩

/-- The record `add_usage` builds for the month string "20ab-cd", which
passes the code's shape check (7 characters with a hyphen at index 4)
without being of YYYY-MM form. -/
def recBadMonth : UsageRecord :=
  ⟨1, "20ab-cd", "electric", 5, compute_anomaly_flag [] 1 "electric" 5⟩

/-- A stored electric reading of 100 kWh for customer 1 in 2026-01, used
as the pre-state of concrete billing runs. -/
def usageEx : UsageRecord := ⟨1, "2026-01", "electric", 100, False⟩

/-- The bill `generate_bill` derives from `usageEx` under the electric
schedule entry (rate 0.16, base fee 8.00): total 24.00. -/
def billEx : Bill := ⟨1, "2026-01", "electric", 100, 16 / 100, 8, 24⟩

/-! ### Helper lemmas on the history query and the key test -/

/-- Membership is preserved by month-ordered insertion. -/
theorem mem_insertByMonth {r s : UsageRecord} {l : List UsageRecord} :
    s ∈ insertByMonth r l ↔ s = r ∨ s ∈ l := by
  induction l with
  | nil => simp [insertByMonth]
  | cons a t ih =>
    rw [insertByMonth]
    split_ifs with h
    · simp [List.mem_cons]
    · simp only [List.mem_cons, ih]
      tauto

/-- Sorting by month preserves membership. -/
theorem mem_sortByMonth {s : UsageRecord} {l : List UsageRecord} :
    s ∈ sortByMonth l ↔ s ∈ l := by
  induction l with
  | nil => simp [sortByMonth]
  | cons a t ih =>
    rw [sortByMonth, mem_insertByMonth, ih, List.mem_cons]

/-- A record is in the fetched history exactly when it is stored and
carries the queried customer id and utility type. -/
theorem mem_usage_history {s : UsageRecord} {db : List UsageRecord} {customer_id : Nat}
    {utility_type : String} :
    s ∈ usage_history db customer_id utility_type ↔
      s ∈ db ∧ s.customer_id = customer_id ∧ s.utility_type = utility_type := by
  rw [usage_history, mem_sortByMonth, List.mem_filter]
  simp [Bool.and_eq_true, beq_iff_eq]

/-- Unfolding of a negative key search: no stored record matches the
key. -/
theorem hasUsageKey_eq_false {db : List UsageRecord} {customer_id : Nat}
    {month utility_type : String} :
    hasUsageKey db customer_id month utility_type = false ↔
      ∀ r ∈ db, ¬ (r.customer_id = customer_id ∧ r.month = month ∧
        r.utility_type = utility_type) := by
  rw [hasUsageKey]
  simp [List.any_eq_true, usageKeyMatch, Bool.and_eq_true, beq_iff_eq]

/-- Inversion of a successful `add_usage` run: every validation gate
passed, the key was free, the stored record is built from the submitted
fields with the flag computed from the pre-state, and the post-state
appends it. -/
theorem add_usage_stored_inv {db : List UsageRecord} {customer_id : Nat}
    {month utility_type : String} {usage_value : ℚ} {r : UsageRecord}
    {db2 : List UsageRecord}
    (h : add_usage db customer_id month utility_type usage_value = (.storedRecord r, db2)) :
    monthShapeOk month = true ∧ ¬ usage_value < 0 ∧
      (DEFAULT_RATES utility_type).isNone = false ∧
      hasUsageKey db customer_id month utility_type = false ∧
      r = { customer_id := customer_id, month := month, utility_type := utility_type,
            usage_value := usage_value,
            is_anomaly := compute_anomaly_flag db customer_id utility_type usage_value } ∧
      db2 = db ++ [r] := by
  simp only [add_usage] at h
  split_ifs at h with h1 h2 h3 h4
  any_goals exact AddUsageOutcome.noConfusion (congrArg Prod.fst h)
  rw [Prod.mk.injEq, AddUsageOutcome.storedRecord.injEq] at h
  obtain ⟨hfst, hsnd⟩ := h
  refine ⟨h1, h2, by simp only [Bool.not_eq_true] at h3; exact h3,
    by simp only [Bool.not_eq_true] at h4; exact h4, hfst.symm, ?_⟩
  rw [← hsnd, hfst]

/-! ### Claim C1: with at least 5 prior values and positive deviation,
the flag is `newValue > mean + 2 * std` -/

/-- C1: for every history of at least 5 prior usage values whose
population standard deviation is strictly positive, the anomaly evaluator
returns true if and only if the new value exceeds the mean plus twice the
population standard deviation (divisor N), computed over the prior values
only — the new value never enters `histMean` or `histVar`. -/
theorem anomaly_iff_above_threshold (history : List ℚ) (new_value : ℚ)
    (h5 : 5 ≤ history.length)
    (hstd : 0 < Real.sqrt ((histVar history : ℚ) : ℝ)) :
    is_anomalous history new_value ↔
      (new_value : ℝ) > ((histMean history : ℚ) : ℝ) + 2 * Real.sqrt ((histVar history : ℚ) : ℝ) := by
  simp only [is_anomalous]
  rw [if_neg (by omega : ¬ history.length < 5), if_pos hstd]

/-- Witness for C1 on the spec's example history [10,12,14,16,18]
(mean 14, variance 8): the reading 20 is flagged. -/
theorem anomaly_iff_above_threshold_witness :
    5 ≤ ([10, 12, 14, 16, 18] : List ℚ).length ∧
    0 < Real.sqrt ((histVar [10, 12, 14, 16, 18] : ℚ) : ℝ) ∧
    is_anomalous [10, 12, 14, 16, 18] 20 := by
  have hvar : histVar [10, 12, 14, 16, 18] = 8 := by
    simp [histVar, histMean]; norm_num
  have hmean : histMean [10, 12, 14, 16, 18] = 14 := by
    simp [histMean]; norm_num
  have hstd : 0 < Real.sqrt ((histVar [10, 12, 14, 16, 18] : ℚ) : ℝ) := by
    rw [hvar]; push_cast
    exact Real.sqrt_pos.mpr (by norm_num)
  refine ⟨by norm_num, hstd, ?_⟩
  rw [anomaly_iff_above_threshold _ _ (by norm_num) hstd, hvar, hmean]
  have hlt : Real.sqrt 8 < 3 := by
    rw [Real.sqrt_lt' (by norm_num)]; norm_num
  push_cast
  nlinarith [hlt]

/-! ### Claim C2: a constant baseline flags exactly the strict increases -/

/-- C2: for every history of at least 5 identical prior values `v` (so
the population standard deviation is 0), the evaluator returns false for
a new value equal to `v` and true for every new value strictly greater
than `v`. -/
theorem constant_history_flags_strict_increase (n : Nat) (v : ℚ) (h5 : 5 ≤ n) :
    ¬ is_anomalous (List.replicate n v) v ∧
      ∀ new_value : ℚ, v < new_value → is_anomalous (List.replicate n v) new_value := by
  have hn : ((n : ℚ)) ≠ 0 := by
    have : (0 : ℚ) < n := by exact_mod_cast Nat.lt_of_lt_of_le (by norm_num) h5
    exact ne_of_gt this
  have hmean : histMean (List.replicate n v) = v := by
    rw [histMean, List.sum_replicate, List.length_replicate, nsmul_eq_mul]
    exact mul_div_cancel_left₀ v hn
  have hvar : histVar (List.replicate n v) = 0 := by
    rw [histVar, List.map_replicate, hmean, sub_self]
    simp [List.sum_replicate]
  have hflag : ∀ new_value : ℚ,
      is_anomalous (List.replicate n v) new_value ↔ v < new_value := by
    intro new_value
    simp only [is_anomalous, List.length_replicate]
    rw [if_neg (by omega : ¬ n < 5), hvar, hmean]
    push_cast
    rw [Real.sqrt_zero, if_neg (lt_irrefl 0)]
  exact ⟨by rw [hflag]; exact lt_irrefl v, fun new_value h => (hflag new_value).mpr h⟩

/-- Witness for C2 on the spec's example: a constant history of five 10s
does not flag 10 but flags 10.01. -/
theorem constant_history_flags_strict_increase_witness :
    5 ≤ 5 ∧ ¬ is_anomalous (List.replicate 5 (10 : ℚ)) 10 ∧
      is_anomalous (List.replicate 5 (10 : ℚ)) (1001 / 100) :=
  ⟨by norm_num, (constant_history_flags_strict_increase 5 10 (by norm_num)).1,
    (constant_history_flags_strict_increase 5 10 (by norm_num)).2 (1001 / 100) (by norm_num)⟩

/-! ### Claim C3: fewer than 5 prior values never flags -/

/-- C3: for every history with fewer than 5 prior values and every new
value whatsoever, the anomaly evaluator returns false. -/
theorem short_history_never_flags (history : List ℚ) (new_value : ℚ)
    (h : history.length < 5) : ¬ is_anomalous history new_value := by
  simp only [is_anomalous]
  rw [if_pos h]
  exact id

/-- Witness for C3: a single prior reading never lets an enormous new
reading be flagged. -/
theorem short_history_never_flags_witness :
    ([42] : List ℚ).length < 5 ∧ ¬ is_anomalous [42] 1000000 :=
  ⟨by norm_num, short_history_never_flags [42] 1000000 (by norm_num)⟩

/-! ### Claim C4: the billing formula and its rounding -/

/-- C4: for all inputs, `calculate_bill usage rate base` is the rounding
of `base + usage * rate` to 2 decimal places: it equals that exact sum
after scaling by 100, rounding to the nearest integer with ties to even,
and unscaling; the rounded cent count differs from the exact cent count
by at most 1/2; and on the spec's examples,
`calculate_bill 100 0.16 8.00 = 24.00` and
`calculate_bill 0 0.005 10.00 = 10.00` exactly.  Being a pure function of
its arguments, the result is deterministic. -/
theorem calculate_bill_rounds_to_cents :
    (∀ usage_value rate_per_unit base_fee : ℚ,
      calculate_bill usage_value rate_per_unit base_fee =
        ((roundHalfEven ((base_fee + usage_value * rate_per_unit) * 100) : ℤ) : ℚ) / 100) ∧
    (∀ x : ℚ, |((roundHalfEven x : ℤ) : ℚ) - x| ≤ 1 / 2) ∧
    calculate_bill 100 (16 / 100) 8 = 24 ∧
    calculate_bill 0 (5 / 1000) 10 = 10 := by
  refine ⟨fun u r b => rfl, ?_, ?_, ?_⟩
  · intro x
    have h0 : ((⌊x⌋ : ℚ)) ≤ x := Int.floor_le x
    have h1 : x < ⌊x⌋ + 1 := Int.lt_floor_add_one x
    rw [roundHalfEven]
    split_ifs with ha hb hc
    · rw [abs_le]; constructor <;> linarith
    · rw [abs_le]; push_cast; constructor <;> linarith
    · rw [abs_le]; constructor <;> linarith
    · rw [abs_le]; push_cast; constructor <;> linarith
  · have h : ((8 : ℚ) + 100 * (16 / 100)) * 100 = 2400 := by norm_num
    simp [calculate_bill, round2, roundHalfEven, h]
    norm_num
  · have h : ((10 : ℚ) + 0 * (5 / 1000)) * 100 = 1000 := by norm_num
    simp [calculate_bill, round2, roundHalfEven, h]
    norm_num

/-! ### Claim C5: which stored data feeds a new record's anomaly flag -/

/-- C5 counterexample: the claim says the stored flag is computed from
records whose month is lexicographically less than the submitted month
only.  Against a store holding five readings of value 10 for months
2026-02 through 2026-06, submitting month 2026-01 with value 100 stores a
record whose flag is true — computed from those five later-month records —
while the strictly-earlier baseline the claim prescribes is empty, under
which the evaluator returns false. -/
theorem anomaly_baseline_not_strictly_earlier_cex :
    add_usage dbLater 1 "2026-01" "electric" 100 =
      (.storedRecord recBackfill, dbLater ++ [recBackfill]) ∧
    recBackfill.is_anomaly ∧
    ¬ is_anomalous ((spec_strictlyEarlier dbLater 1 "electric" "2026-01").map
        UsageRecord.usage_value) 100 := by
  refine ⟨rfl, ?_, ?_⟩
  · show is_anomalous ((usage_history dbLater 1 "electric").map UsageRecord.usage_value) 100
    rw [show (usage_history dbLater 1 "electric").map UsageRecord.usage_value =
      [10, 10, 10, 10, 10] from rfl]
    have hvar : histVar [10, 10, 10, 10, 10] = 0 := by simp [histVar, histMean]; norm_num
    have hmean : histMean [10, 10, 10, 10, 10] = 10 := by simp [histMean]; norm_num
    simp [is_anomalous, hvar, hmean]
    norm_num
  · rw [show (spec_strictlyEarlier dbLater 1 "electric" "2026-01").map UsageRecord.usage_value =
      ([] : List ℚ) from rfl]
    simp [is_anomalous]

/-- C5 (amended): the flag stored on a new record is computed from all
records of that customer and utility type present in the store at
submission time — regardless of how their months compare to the submitted
month — ordered by month ascending; and the new record itself is never
part of that baseline: no record of the fetched history carries the new
record's key. -/
theorem anomaly_flag_uses_all_stored_history (db : List UsageRecord) (customer_id : Nat)
    (month utility_type : String) (usage_value : ℚ) (r : UsageRecord) (db2 : List UsageRecord)
    (h : add_usage db customer_id month utility_type usage_value = (.storedRecord r, db2)) :
    (r.is_anomaly ↔ is_anomalous ((usage_history db customer_id utility_type).map
        UsageRecord.usage_value) usage_value) ∧
    ∀ s ∈ usage_history db customer_id utility_type,
      ¬ (s.customer_id = customer_id ∧ s.month = month ∧ s.utility_type = utility_type) := by
  obtain ⟨-, -, -, hkey, hr, -⟩ := add_usage_stored_inv h
  constructor
  · rw [hr]
    exact Iff.rfl
  · intro s hs hmatch
    exact (hasUsageKey_eq_false.mp hkey) s (mem_usage_history.mp hs).1 hmatch

/-- Witness for the amended C5: the first submission of a customer is
stored with a flag computed from the (empty) pre-state history. -/
theorem anomaly_flag_uses_all_stored_history_witness :
    add_usage [] 1 "2026-01" "electric" 5 = (.storedRecord recFirst, [recFirst]) ∧
    ((recFirst.is_anomaly ↔ is_anomalous ((usage_history [] 1 "electric").map
        UsageRecord.usage_value) 5) ∧
      ∀ s ∈ usage_history [] 1 "electric",
        ¬ (s.customer_id = 1 ∧ s.month = "2026-01" ∧ s.utility_type = "electric")) :=
  ⟨rfl, anomaly_flag_uses_all_stored_history [] 1 "2026-01" "electric" 5 recFirst [recFirst] rfl⟩

/-! ### Claim C6: validation of usage submissions -/

/-- C6 counterexample: the claim says every request whose month string is
not of YYYY-MM form is rejected before anything is stored.  The code only
checks that the month has 7 characters with a hyphen at index 4, so the
month "20ab-cd" — not of YYYY-MM form — passes validation and the record
is stored. -/
theorem malformed_month_accepted_cex :
    add_usage [] 1 "20ab-cd" "electric" 5 = (.storedRecord recBadMonth, [recBadMonth]) := rfl

/-- C6 (amended): every usage submission whose month string fails the
code's shape check (length 7 with a hyphen at index 4), whose usage value
is negative or fails to parse as a number, or whose utility type is not
in the rate schedule, is rejected with a distinct error outcome — a flash
message, not an exception — before the anomaly evaluator runs and with
the store left unchanged. -/
theorem add_usage_rejects_invalid :
    (∀ (db : List UsageRecord) (customer_id : Nat) (month utility_type : String)
      (usage_value : ℚ), monthShapeOk month = false →
        add_usage db customer_id month utility_type usage_value = (.monthFormatError, db)) ∧
    (∀ (db : List UsageRecord) (customer_id : Nat) (month utility_type : String)
      (usage_value : ℚ), monthShapeOk month = true → usage_value < 0 →
        add_usage db customer_id month utility_type usage_value = (.usageValueError, db)) ∧
    (∀ (db : List UsageRecord) (customer_id : Nat) (month utility_type : String)
      (usage_value : ℚ), monthShapeOk month = true → ¬ usage_value < 0 →
      DEFAULT_RATES utility_type = none →
        add_usage db customer_id month utility_type usage_value = (.utilityTypeError, db)) ∧
    (∀ raw : String, pyFloatOfString raw = none → usage_value_validation raw = none) ∧
    (∀ (raw : String) (q : ℚ), pyFloatOfString raw = some (.finite q) → q < 0 →
      usage_value_validation raw = none) := by
  refine ⟨?_, ?_, ?_, ?_, ?_⟩
  · intro db customer_id month utility_type usage_value h
    simp [add_usage, h]
  · intro db customer_id month utility_type usage_value hm hv
    simp [add_usage, hm, hv]
  · intro db customer_id month utility_type usage_value hm hv hu
    simp [add_usage, hm, hv, hu]
  · intro raw h
    simp [usage_value_validation, h]
  · intro raw q h hq
    simp [usage_value_validation, h, PyFloat.ltZero, hq]

/-- Witness for the amended C6, one concrete rejection per class: a month
with the hyphen misplaced, a negative reading, an unknown utility type, a
non-numeric raw value, and a raw value parsing to a negative number. -/
theorem add_usage_rejects_invalid_witness :
    (monthShapeOk "2026/011" = false ∧
      add_usage [] 1 "2026/011" "electric" 5 = (.monthFormatError, [])) ∧
    (monthShapeOk "2026-01" = true ∧ ((-3 : ℚ) < 0) ∧
      add_usage [] 1 "2026-01" "electric" (-3) = (.usageValueError, [])) ∧
    (DEFAULT_RATES "steam" = none ∧
      add_usage [] 1 "2026-01" "steam" 5 = (.utilityTypeError, [])) ∧
    (pyFloatOfString "abc" = none ∧ usage_value_validation "abc" = none) ∧
    (pyFloatOfString "-5" = some (.finite (-5)) ∧ usage_value_validation "-5" = none) := by
  have hneg : pyFloatOfString "-5" = some (.finite (-5)) := by
    simp [pyFloatOfString, decimalCore, digitsToNat]
  refine ⟨⟨by decide, add_usage_rejects_invalid.1 [] 1 "2026/011" "electric" 5 (by decide)⟩,
    ⟨by decide, by norm_num,
      add_usage_rejects_invalid.2.1 [] 1 "2026-01" "electric" (-3) (by decide) (by norm_num)⟩,
    ⟨by decide,
      add_usage_rejects_invalid.2.2.1 [] 1 "2026-01" "steam" 5 (by decide) (by norm_num)
        (by decide)⟩,
    ⟨by decide, add_usage_rejects_invalid.2.2.2.1 "abc" (by decide)⟩,
    ⟨hneg, add_usage_rejects_invalid.2.2.2.2 "-5" (-5) hneg (by norm_num)⟩⟩

/-! ### Claim C7: duplicate usage records are rejected and keys stay
unique -/

/-- C7: inserting a usage record whose (customer, month, utility type)
key is already stored fails — the request that passes validation reaches
the unique constraint, the transaction is rolled back and reported as a
duplicate, and the store (in particular the first record) is unchanged —
and every `add_usage` transition preserves the invariant that at most one
record per key exists. -/
theorem duplicate_usage_insert_rejected :
    (∀ (db : List UsageRecord) (customer_id : Nat) (month utility_type : String)
      (usage_value : ℚ), monthShapeOk month = true → ¬ usage_value < 0 →
      (DEFAULT_RATES utility_type).isNone = false →
      hasUsageKey db customer_id month utility_type = true →
        add_usage db customer_id month utility_type usage_value = (.duplicateError, db)) ∧
    (∀ (db : List UsageRecord) (customer_id : Nat) (month utility_type : String)
      (usage_value : ℚ), uniqueKeys db →
        uniqueKeys (add_usage db customer_id month utility_type usage_value).2) := by
  constructor
  · intro db customer_id month utility_type usage_value hm hv hu hk
    simp [add_usage, hm, hv, hu, hk]
  · intro db customer_id month utility_type usage_value hdb
    simp only [add_usage]
    split_ifs with h1 h2 h3 h4
    any_goals exact hdb
    rw [uniqueKeys, List.pairwise_append]
    refine ⟨hdb, by simp, ?_⟩
    intro a ha b hb
    simp only [List.mem_singleton] at hb
    subst hb
    intro hkeyEq
    rw [recKey, recKey, Prod.mk.injEq, Prod.mk.injEq] at hkeyEq
    exact (hasUsageKey_eq_false.mp (by simp only [Bool.not_eq_true] at h4; exact h4)) a ha
      ⟨hkeyEq.1, hkeyEq.2.1, hkeyEq.2.2⟩

/-- Witness for C7: against a store holding one electric record for
customer 1 in 2026-01, resubmitting the same key is rejected as a
duplicate with the store unchanged, and key uniqueness is preserved. -/
theorem duplicate_usage_insert_rejected_witness :
    (monthShapeOk "2026-01" = true ∧ ¬ (7 : ℚ) < 0 ∧
      (DEFAULT_RATES "electric").isNone = false ∧
      hasUsageKey [usageEx] 1 "2026-01" "electric" = true ∧
      add_usage [usageEx] 1 "2026-01" "electric" 7 = (.duplicateError, [usageEx])) ∧
    (uniqueKeys [usageEx] ∧
      uniqueKeys (add_usage [usageEx] 1 "2026-01" "electric" 7).2) := by
  have huniq : uniqueKeys [usageEx] := by simp [uniqueKeys]
  refine ⟨⟨by decide, by norm_num, by decide, by decide, ?_⟩, huniq, ?_⟩
  · exact duplicate_usage_insert_rejected.1 [usageEx] 1 "2026-01" "electric" 7
      (by decide) (by norm_num) (by decide) (by decide)
  · exact duplicate_usage_insert_rejected.2 [usageEx] 1 "2026-01" "electric" 7 huniq

/-! ### Claims C8 and C10: bill generation -/

/-- Concrete billing run shared by the witnesses below: from a store
holding the 100 kWh reading `usageEx`, generating the 2026-01 electric
bill stores `billEx` with total 24.00. -/
theorem generate_bill_example :
    generate_bill [usageEx] [] 1 "2026-01" "electric" = (.storedBill billEx, [billEx]) := by
  have h24 : calculate_bill 100 (16 / 100) 8 = 24 := by
    have h : ((8 : ℚ) + 100 * (16 / 100)) * 100 = 2400 := by norm_num
    simp [calculate_bill, round2, roundHalfEven, h]
    norm_num
  simp [generate_bill, usageKeyMatch, DEFAULT_RATES, hasBillKey, usageEx, billEx,
    List.find?, h24]

/-- C8: a bill is created only when a matching usage record exists: a
bill-generation request that finds no usage record with the requested
(customer, month, utility type) key reports the error with the bill store
unchanged — not an exception — and every successfully stored bill was
derived from a found usage record. -/
theorem bill_requires_usage_record :
    (∀ (usage_db : List UsageRecord) (bill_db : List Bill) (customer_id : Nat)
      (month utility_type : String),
      usage_db.find? (usageKeyMatch customer_id month utility_type) = none →
        generate_bill usage_db bill_db customer_id month utility_type =
          (.noUsageRecord, bill_db)) ∧
    (∀ (usage_db : List UsageRecord) (bill_db : List Bill) (customer_id : Nat)
      (month utility_type : String) (b : Bill) (bill_db2 : List Bill),
      generate_bill usage_db bill_db customer_id month utility_type =
          (.storedBill b, bill_db2) →
        (usage_db.find? (usageKeyMatch customer_id month utility_type)).isSome = true) := by
  constructor
  · intro usage_db bill_db customer_id month utility_type h
    simp [generate_bill, h]
  · intro usage_db bill_db customer_id month utility_type b bill_db2 h
    simp only [generate_bill] at h
    cases hfind : usage_db.find? (usageKeyMatch customer_id month utility_type) with
    | none => rw [hfind] at h; simp at h
    | some r => rfl

/-- Witness for C8: with an empty usage store the request is reported
with nothing stored; with `usageEx` stored, the generated bill comes from
a found record. -/
theorem bill_requires_usage_record_witness :
    (List.find? (usageKeyMatch 1 "2026-01" "electric") ([] : List UsageRecord) = none ∧
      generate_bill [] [] 1 "2026-01" "electric" = (.noUsageRecord, [])) ∧
    (generate_bill [usageEx] [] 1 "2026-01" "electric" = (.storedBill billEx, [billEx]) ∧
      (List.find? (usageKeyMatch 1 "2026-01" "electric") [usageEx]).isSome = true) :=
  ⟨⟨rfl, bill_requires_usage_record.1 [] [] 1 "2026-01" "electric" rfl⟩,
    ⟨generate_bill_example,
      bill_requires_usage_record.2 [usageEx] [] 1 "2026-01" "electric" billEx [billEx]
        generate_bill_example⟩⟩

/-- C10: every bill stored by a successful generation run is internally
consistent: its usage value is the found usage record's value at
generation time, its rate and base fee are the static schedule entry for
its utility type, and its total is the billing formula — the rounding of
base fee plus usage times rate to 2 decimal places — applied to its own
fields. -/
theorem bill_internal_consistency (usage_db : List UsageRecord) (bill_db : List Bill)
    (customer_id : Nat) (month utility_type : String) (b : Bill) (bill_db2 : List Bill)
    (h : generate_bill usage_db bill_db customer_id month utility_type =
      (.storedBill b, bill_db2)) :
    ∃ r rate_info,
      usage_db.find? (usageKeyMatch customer_id month utility_type) = some r ∧
      DEFAULT_RATES utility_type = some rate_info ∧
      b.usage_value = r.usage_value ∧
      b.rate_per_unit = rate_info.rate_per_unit ∧
      b.base_fee = rate_info.base_fee ∧
      b.total_amount = round2 (b.base_fee + b.usage_value * b.rate_per_unit) := by
  simp only [generate_bill] at h
  cases hfind : usage_db.find? (usageKeyMatch customer_id month utility_type) with
  | none => rw [hfind] at h; simp at h
  | some r =>
    rw [hfind] at h
    cases hrate : DEFAULT_RATES utility_type with
    | none => rw [hrate] at h; simp at h
    | some rate_info =>
      rw [hrate] at h
      dsimp only at h
      split_ifs at h with hdup
      · simp at h
      · rw [Prod.mk.injEq, BillOutcome.storedBill.injEq] at h
        obtain ⟨hb, -⟩ := h
        subst hb
        exact ⟨r, rate_info, rfl, rfl, rfl, rfl, rfl, rfl⟩

/-- Witness for C10 on the concrete run `generate_bill_example`. -/
theorem bill_internal_consistency_witness :
    generate_bill [usageEx] [] 1 "2026-01" "electric" = (.storedBill billEx, [billEx]) ∧
    ∃ r rate_info,
      List.find? (usageKeyMatch 1 "2026-01" "electric") [usageEx] = some r ∧
      DEFAULT_RATES "electric" = some rate_info ∧
      billEx.usage_value = r.usage_value ∧
      billEx.rate_per_unit = rate_info.rate_per_unit ∧
      billEx.base_fee = rate_info.base_fee ∧
      billEx.total_amount = round2 (billEx.base_fee + billEx.usage_value * billEx.rate_per_unit) :=
  ⟨generate_bill_example,
    bill_internal_consistency [usageEx] [] 1 "2026-01" "electric" billEx [billEx]
      generate_bill_example⟩

/-! ### Claim C9: NaN and infinity pass the usage-value validation -/

/-- C9: there is an accepted usage-value input that is not a non-negative
number: the validation parses the raw string with `float` and rejects
only values comparing less than zero, so the strings "nan" and "inf"
pass — the IEEE comparisons NaN < 0 and +inf < 0 are both false — and the
accepted value, which becomes the stored usage value, is not a finite
number. -/
theorem nan_inf_pass_usage_validation :
    usage_value_validation "nan" = some PyFloat.nan ∧
    usage_value_validation "inf" = some PyFloat.inf ∧
    PyFloat.nan.isFinite = false ∧
    PyFloat.inf.isFinite = false := by
  refine ⟨by decide, by decide, rfl, rfl⟩

end UtilityBilling
